import Mathlib

/-!
Formal model of the SBK_BarDrive library core: the segment address resolver
of `SBK_BarMeter` (src/SBK_BarDrive.h) and the animation engine of
`SBK_BarMeterAnimations` (src/SBK_BarMeterAnimations.h), shallowly embedded
in Lean.

Modelling conventions:
* C++ `uint8_t` stores are modelled as `Nat` with an explicit `% 256`
  wherever the stored expression can exceed 255; `uint16_t` stores use
  `% 65536`; `uint32_t` time arithmetic uses a wrap-around subtraction
  `sub32`.
* C++ `int8_t` values are modelled as `Int` with an explicit truncation
  `toInt8` at each store, and `toU8` models an `int -> uint8_t` conversion.
* A C++ pointer to a live value is modelled as an `Option` of the
  pointed-to value (`none` is a null pointer).
* The LED buffer of the driver is a function `device -> row -> col -> Bool`.
-/

/-- Truncation of an `int` value to `uint8_t` (mod 256, as C++ does). -/
def toU8 (x : Int) : Nat := (Int.emod x 256).toNat

/-- Truncation of an `int` value to `int8_t` (two's-complement wrap). -/
def toInt8 (x : Int) : Int := Int.emod (x + 128) 256 - 128

/-- `uint32_t` subtraction `a - b` with wrap-around, used for time deltas. -/
def sub32 (a b : Nat) : Nat := (a + 4294967296 - b) % 4294967296

/-- Arduino `map(x, inMin, inMax, outMin, outMax)`: linear range mapping with
C `long` truncated division. -/
def amap (x inMin inMax outMin outMax : Int) : Int :=
  Int.tdiv ((x - inMin) * (outMax - outMin)) (inMax - inMin) + outMin

/-- `BarDirection` from SBK_BarDrive.h. -/
inductive BarDirection where
  | forward
  | reverse
deriving DecidableEq

/-- One `{device, row, col}` entry of a user custom mapping table. -/
structure MapEntry where
  dev : Nat
  row : Nat
  col : Nat
deriving DecidableEq

/-- Transport capabilities consulted by the resolver (`maxRows(devIdx)`,
`maxColumns()` of the SBK driver API). -/
structure Driver where
  maxRows : Nat → Nat
  maxColumns : Nat

/-- The LED buffer of the driver: device -> row -> col -> on/off. -/
abbrev LedState := Nat → Nat → Nat → Bool

/-- `driver->setLed(dev, row, col, v)`: update one LED in the buffer. -/
def setLed (dev row col : Nat) (v : Bool) (led : LedState) : LedState :=
  fun d r c => if d = dev ∧ r = row ∧ c = col then v else led d r c

/-- Configuration state of one `SBK_BarMeter` instance (the fields read by
`_getMappedDevRowCol`, `setPixel` and `getPixelState`). -/
structure BarMeter where
  driver : Option Driver
  devIdx : Nat
  direction : BarDirection
  segOffset : Nat
  rowOffset : Nat
  colOffset : Nat
  isMatrixMapped : Bool
  segsNum : Nat
  rowsNum : Nat
  colsNum : Nat
  customMapping : Option (List MapEntry)
  userMappingIsProgmem : Bool

/-- `SBK_BarMeter::_getMappedDevRowCol(seg, &dev, &row, &col)`, returned as a
`(device, row, col)` triple.  Follows the source line by line: direction
correction, segment offset in non-matrix mode, custom-table branch (PROGMEM
reads take the raw bytes; the non-PROGMEM branch adds the row/col offsets),
then the auto-mapping branch.  The in/out `devIdx` argument starts at the
member `_devIdx`, so `maxRows` is queried at the base device. -/
def getMappedDevRowCol (m : BarMeter) (d : Driver) (seg : Nat) : Nat × Nat × Nat :=
  let mappedSeg0 := if m.direction = BarDirection.reverse then m.segsNum - 1 - seg else seg
  let mappedSeg := (mappedSeg0 + (if m.isMatrixMapped then 0 else m.segOffset)) % 256
  match m.customMapping with
  | some table =>
    let entry := table.getD mappedSeg { dev := 0, row := 0, col := 0 }
    if m.userMappingIsProgmem then
      (entry.dev, entry.row, entry.col)
    else
      (entry.dev, (entry.row + m.rowOffset) % 256, (entry.col + m.colOffset) % 256)
  | none =>
    let segPerDev := (d.maxRows m.devIdx * d.maxColumns) % 256
    let baseDevIdx := (m.devIdx + mappedSeg / segPerDev) % 256
    let localIdx := mappedSeg % segPerDev
    if m.isMatrixMapped then
      (baseDevIdx, (localIdx % m.rowsNum + m.rowOffset) % 256,
        (localIdx / m.rowsNum + m.colOffset) % 256)
    else
      (baseDevIdx, localIdx / d.maxColumns, localIdx % d.maxColumns)

/-- `SBK_BarMeter::setPixel(segment, state)`: guarded write through the
resolver into the driver buffer.  The source guard is
`if (segment >= _segsNum || !_driver) return;`. -/
def BarMeter.setPixel (m : BarMeter) (led : LedState) (seg state : Nat) : LedState :=
  match m.driver with
  | none => led
  | some d =>
    if seg ≥ m.segsNum then led
    else
      let a := getMappedDevRowCol m d seg
      setLed a.1 a.2.1 a.2.2 (state != 0) led

/-- `SBK_BarMeter::getPixelState(segment)`: guarded read through the
resolver from the driver buffer; returns 1/0 (`uint8_t` of the bool). -/
def BarMeter.getPixelState (m : BarMeter) (led : LedState) (seg : Nat) : Nat :=
  match m.driver with
  | none => 0
  | some d =>
    if seg ≥ m.segsNum then 0
    else
      let a := getMappedDevRowCol m d seg
      if led a.1 a.2.1 a.2.2 then 1 else 0

/-- Resolver formula as the specification words it (claim C1): direction
reversal first, segment-start offset only in linear mode, then
`segPerDevice = rowsPerDevice * columnsPerDevice`, device and local index by
div/mod, column-major in matrix mode, row-major in linear mode, row/column
offsets in matrix mode only.  All stores use `uint8_t` wrap as the program
does. -/
def resolveSpecC1 (m : BarMeter) (d : Driver) (i : Nat) : Nat × Nat × Nat :=
  let i1 := if m.direction = BarDirection.reverse then m.segsNum - 1 - i else i
  let i2 := (i1 + (if m.isMatrixMapped then 0 else m.segOffset)) % 256
  let segPerDevice := (d.maxRows m.devIdx * d.maxColumns) % 256
  let device := (m.devIdx + i2 / segPerDevice) % 256
  let localIdx := i2 % segPerDevice
  if m.isMatrixMapped then
    (device, (localIdx % m.rowsNum + m.rowOffset) % 256,
      (localIdx / m.rowsNum + m.colOffset) % 256)
  else
    (device, localIdx / d.maxColumns, localIdx % d.maxColumns)

/-- A driver exposing 8x8 devices, as the MAX72xx transport does. -/
def demoDriver : Driver := { maxRows := fun _ => 8, maxColumns := 8 }

/-- A 28-segment linear (non-matrix) bar on device 0 of `demoDriver`, built
as the segment-count constructor builds it (rows/cols filled from the
driver, no custom table). -/
def bar28 : BarMeter :=
  { driver := some demoDriver
    devIdx := 0
    direction := BarDirection.forward
    segOffset := 0
    rowOffset := 0
    colOffset := 0
    isMatrixMapped := false
    segsNum := 28
    rowsNum := 8
    colsNum := 8
    customMapping := none
    userMappingIsProgmem := false }

/-- Custom mapping table whose entry 5 is `{device 1, row 0, col 1}`. -/
def customTable : List MapEntry :=
  [ { dev := 0, row := 0, col := 0 }
  , { dev := 0, row := 0, col := 1 }
  , { dev := 0, row := 0, col := 2 }
  , { dev := 0, row := 1, col := 0 }
  , { dev := 0, row := 1, col := 1 }
  , { dev := 1, row := 0, col := 1 } ]

/-- A bar using `customTable` flagged as PROGMEM, with nonzero row/column
offsets, as the custom-mapping constructor builds it. -/
def barCustomP : BarMeter :=
  { driver := some demoDriver
    devIdx := 0
    direction := BarDirection.forward
    segOffset := 0
    rowOffset := 2
    colOffset := 3
    isMatrixMapped := true
    segsNum := 6
    rowsNum := 8
    colsNum := 8
    customMapping := some customTable
    userMappingIsProgmem := true }

/-- C1: for every logical index `i` in `[0, segmentCount)` with no custom
table configured, `_getMappedDevRowCol` first applies the REVERSE
correction `segmentCount - 1 - i`, then adds the segment-start offset only
in non-matrix mode, then computes `segPerDevice = rowsPerDevice *
columnsPerDevice`, `device = base + i / segPerDevice`,
`local = i % segPerDevice`, and maps `local` column-major (`row = local %
rows`, `col = local / rows`) in matrix mode and row-major (`row = local /
columns`, `col = local % columns`) in linear mode, adding the row/column
offsets in matrix mode only. -/
theorem C1_resolver_auto_map (m : BarMeter) (d : Driver) (i : Nat)
    (hct : m.customMapping = none) (_hi : i < m.segsNum) :
    getMappedDevRowCol m d i = resolveSpecC1 m d i := by
  unfold getMappedDevRowCol resolveSpecC1
  rw [hct]

/-- Witness for C1 at the concrete 28-segment linear bar, index 9. -/
theorem C1_resolver_auto_map_witness :
    bar28.customMapping = none ∧ 9 < bar28.segsNum ∧
      getMappedDevRowCol bar28 demoDriver 9 = resolveSpecC1 bar28 demoDriver 9 :=
  ⟨rfl, by decide, C1_resolver_auto_map bar28 demoDriver 9 rfl (by decide)⟩

/-- C2 evaluation at the failing input: with a PROGMEM-flagged custom table
and configured offsets `rowOffset = 2`, `colOffset = 3`, resolving logical
segment 5 returns the raw table triple `(1, 0, 1)` and does NOT add the
offsets (the claim and the constructor documentation say the offsets are
added in the PROGMEM path too, which would give `(1, 2, 4)`). -/
theorem C2_progmem_offsets_eval :
    getMappedDevRowCol barCustomP demoDriver 5 = (1, 0, 1) ∧
      getMappedDevRowCol barCustomP demoDriver 5 ≠
        (1, 0 + barCustomP.rowOffset, 1 + barCustomP.colOffset) := by
  constructor
  · rfl
  · decide

/-- C5: a segment index at or beyond the segment count, or a null driver
pointer, makes `setPixel` a no-op on the whole LED state and makes
`getPixelState` return 0; no wrap into range occurs. -/
theorem C5_out_of_range_noop (m : BarMeter) (led : LedState) (seg state : Nat)
    (h : m.segsNum ≤ seg ∨ m.driver = none) :
    m.setPixel led seg state = led ∧ m.getPixelState led seg = 0 := by
  unfold BarMeter.setPixel BarMeter.getPixelState
  cases hd : m.driver with
  | none => exact ⟨rfl, rfl⟩
  | some d =>
    rcases h with h | h
    · dsimp only
      rw [if_pos h, if_pos h]
      exact ⟨rfl, rfl⟩
    · rw [hd] at h
      cases h

/-- Witness for C5: index 28 on the 28-segment bar is a no-op and reads 0. -/
theorem C5_out_of_range_noop_witness :
    (bar28.segsNum ≤ 28 ∨ bar28.driver = none) ∧
      (bar28.setPixel (fun _ _ _ => false) 28 1 = (fun _ _ _ => false) ∧
        bar28.getPixelState (fun _ _ _ => false) 28 = 0) :=
  ⟨Or.inl (by decide),
    C5_out_of_range_noop bar28 (fun _ _ _ => false) 28 1 (Or.inl (by decide))⟩

/-- `Block` from SBK_BarMeterAnimations.h: a moving block record. -/
structure Block where
  position : Int
  active : Bool
deriving DecidableEq

/-- Tag for the member-function pointer `_currentFunc` (the step functions
modelled in this development; the scenario claims only exercise
`_fillOrEmpty` and select `_beatPulse`). -/
inductive AnimFunc where
  | fillOrEmptyF
  | beatPulseF
  | otherF
deriving DecidableEq

/-- The state of one `SBK_BarMeterAnimations` engine instance: its control
flags, timers, trackers, generic parameter slots, live-signal pointers and
block pool, exactly the protected fields of the source class. -/
structure Engine where
  segsNum : Nat
  currentFunc : Option AnimFunc
  init : Bool
  isRunning : Bool
  isPaused : Bool
  loop : Bool
  isLoopingNow : Bool
  AnimInitLogicIsInverted : Bool
  animRenderLogicIsInverted : Bool
  prevAnimRenderLogic : Bool
  isNonInvertingLogicAnim : Bool
  mirrorHalfRangeDir : Bool
  animLogicSet : Bool
  skipPending : Bool
  animRenderDirIsReversed : Bool
  AnimInitDirIsReversed : Bool
  animDirSet : Bool
  usePtr : Bool
  emittingBlocksEnabled : Bool
  currentTime : Nat
  lastUpdate1 : Nat
  lastUpdate2 : Nat
  lastUpdate3 : Nat
  updateIntv1 : Nat
  updateIntv2 : Nat
  updateIntv3 : Nat
  sequenceState : Nat
  ledTracker1 : Int
  ledTracker2 : Int
  ledTracker3 : Int
  minTracker : Int
  maxTracker : Int
  param1 : Nat
  param2 : Nat
  param3 : Nat
  param4 : Nat
  param5 : Nat
  smoothedValue1 : Nat
  smoothedValue2 : Nat
  minMap : Nat
  maxMap : Nat
  counter1 : Nat
  counter2 : Nat
  sigPtr1 : Option Nat
  sigPtr2 : Option Nat
  blocks : List Block

/-- The member-initializer values of `SBK_BarMeterAnimations` (the state of
a freshly constructed engine). -/
def engine0 : Engine :=
  { segsNum := 0
    currentFunc := none
    init := true
    isRunning := false
    isPaused := false
    loop := false
    isLoopingNow := false
    AnimInitLogicIsInverted := false
    animRenderLogicIsInverted := false
    prevAnimRenderLogic := false
    isNonInvertingLogicAnim := false
    mirrorHalfRangeDir := false
    animLogicSet := false
    skipPending := false
    animRenderDirIsReversed := false
    AnimInitDirIsReversed := false
    animDirSet := false
    usePtr := false
    emittingBlocksEnabled := true
    currentTime := 0
    lastUpdate1 := 0
    lastUpdate2 := 0
    lastUpdate3 := 0
    updateIntv1 := 10
    updateIntv2 := 10
    updateIntv3 := 10
    sequenceState := 0
    ledTracker1 := 0
    ledTracker2 := 0
    ledTracker3 := 0
    minTracker := 0
    maxTracker := 1
    param1 := 0
    param2 := 0
    param3 := 0
    param4 := 0
    param5 := 0
    smoothedValue1 := 0
    smoothedValue2 := 0
    minMap := 0
    maxMap := 1023
    counter1 := 0
    counter2 := 0
    sigPtr1 := none
    sigPtr2 := none
    blocks := [] }

/-- `stop()`: clears pause, running, skip-pending, the selected step
function and the logic-set flag (and nothing else). -/
def Engine.stop (e : Engine) : Engine :=
  { e with
    isPaused := false
    isRunning := false
    skipPending := false
    currentFunc := none
    animLogicSet := false }

/-- `toggleDir()`: flips the rendering-direction flag and marks the
direction as user-set. -/
def Engine.toggleDir (e : Engine) : Engine :=
  { e with
    animRenderDirIsReversed := !e.animRenderDirIsReversed
    animDirSet := true }

/-- `_corrPixelToDir(pixel)`: direction correction applied when rendering,
`(_segsNum - 1) - pixel` when reversed (with `uint8_t` wrap on return). -/
def Engine.corrPixelToDir (e : Engine) (pixel : Nat) : Nat :=
  if e.animRenderDirIsReversed then toU8 ((e.segsNum : Int) - 1 - (pixel : Int))
  else pixel

/-- `setSegsNum(n)`: stores the segment count and `_maxTracker = n - 1`
(`int8_t` store of an `int` expression). -/
def Engine.setSegsNum (e : Engine) (n : Nat) : Engine :=
  { e with
    segsNum := n % 256
    maxTracker := toInt8 ((n % 256 : Nat) - 1 : Int) }

/-- `_normalizePercentRange(minP, maxP)`: constrain both to 0..100, swap if
out of order, and widen an equal pair by one unit. -/
def normalizePercentRange (minP maxP : Nat) : Nat × Nat :=
  let minP := min minP 100
  let maxP := min maxP 100
  let p := if minP > maxP then (maxP, minP) else (minP, maxP)
  if p.1 = p.2 then
    if p.2 < 100 then (p.1, p.1 + 1) else (p.1 - 1, p.2)
  else p

/-- `_correctSwapOrEqualMinMax(minVal, maxVal)` on `uint16_t` references.
The source condition is written `if (maxVal < 65, 535)`: a comma expression
whose value is the constant `535`, so the branch is always taken and the
`minVal--` branch is dead code; the increment wraps at 65535. -/
def correctSwapOrEqualMinMax (minVal maxVal : Nat) : Nat × Nat :=
  let p := if minVal > maxVal then (maxVal, minVal) else (minVal, maxVal)
  if p.1 = p.2 then
    if (535 : Nat) ≠ 0 then (p.1, (p.1 + 1) % 65536) else (p.1 - 1, p.2)
  else p

/-- `_mapMinMaxTracker(minP, maxP, minR, maxR)`: normalize the percent pair
and map it linearly onto the tracker range (stores are `int8_t`). -/
def Engine.mapMinMaxTracker (e : Engine) (minP maxP minR maxR : Nat) : Engine :=
  let p := normalizePercentRange (minP % 256) (maxP % 256)
  { e with
    minTracker := toInt8 (amap (p.1 : Int) 0 100 (minR : Int) (maxR : Int))
    maxTracker := toInt8 (amap (p.2 : Int) 0 100 (minR : Int) (maxR : Int)) }

/-- `_mapMinMaxTrackerFromPtr(minPtr, maxPtr, minR, maxR)`: as
`_mapMinMaxTracker` but reading the percent pair through the live pointers
(`uint8_t` reads of the pointed `uint16_t` values), a no-op unless the
animation uses pointers. -/
def Engine.mapMinMaxTrackerFromPtr (e : Engine) (minR : Int) (maxR : Nat) : Engine :=
  if !e.usePtr then e
  else
    let minP := match e.sigPtr1 with
      | some v => v % 256
      | none => 0
    let maxP := match e.sigPtr2 with
      | some v => v % 256
      | none => 100
    let p := normalizePercentRange minP maxP
    { e with
      minTracker := toInt8 (amap (p.1 : Int) 0 100 minR (maxR : Int))
      maxTracker := toInt8 (amap (p.2 : Int) 0 100 minR (maxR : Int)) }

/-- `fillUpIntv(updateIntv, maxPercent, minPercent)` (constant-range
overload): configures the fill-up animation and selects `_fillOrEmpty`.
It does not touch `_init`. -/
def Engine.fillUpIntv (updateIntv maxPercent minPercent : Nat) (e : Engine) : Engine :=
  let e := { e with
    isNonInvertingLogicAnim := false
    animRenderDirIsReversed := false
    AnimInitLogicIsInverted := false
    usePtr := false
    sigPtr2 := none
    sigPtr1 := none }
  let e := e.mapMinMaxTracker minPercent maxPercent 0 (toU8 ((e.segsNum : Int) - 1))
  { e with
    isRunning := true
    updateIntv1 := max 5 (updateIntv % 65536)
    currentFunc := some AnimFunc.fillOrEmptyF }

/-- `beatPulse(uint8_t *bpmPtr)` (pointer overload), written as the source
sequence of assignments: `_param2` is assigned twice (the MIN_BASE_LEVEL
value and then the MIN_PEAK_LEVEL value), `_param3` is never assigned, and
the final statement `_init - true;` only evaluates an expression, leaving
`_init` unchanged. -/
def Engine.beatPulsePtr (bpmPtr : Option Nat) (s0 : Engine) : Engine :=
  let s1 := { s0 with sigPtr1 := bpmPtr }
  let s2 := { s1 with param2 := min (35 * (s1.segsNum - 1) / 100) 255 }
  let s3 := { s2 with param2 := min (67 * (s2.segsNum - 1) / 100) 255 }
  let s4 := { s3 with param4 := 150 }
  { s4 with
    usePtr := true
    isNonInvertingLogicAnim := true
    AnimInitLogicIsInverted := false
    animRenderDirIsReversed := false
    isRunning := true
    currentFunc := some AnimFunc.beatPulseF }

/-- `beatPulse(uint8_t bpm)` (constant overload): assigns `_param1`,
`_param2` (MIN_BASE_LEVEL), `_param3` (MIN_PEAK_LEVEL), `_param4`, and
re-arms `_init`. -/
def Engine.beatPulseConst (bpm : Nat) (s0 : Engine) : Engine :=
  let s1 := { s0 with param1 := max 1 (bpm % 256) }
  let s2 := { s1 with param2 := min (35 * (s1.segsNum - 1) / 100) 255 }
  let s3 := { s2 with param3 := min (67 * (s2.segsNum - 1) / 100) 255 }
  let s4 := { s3 with param4 := 150 }
  { s4 with
    sigPtr1 := none
    usePtr := false
    isNonInvertingLogicAnim := true
    AnimInitLogicIsInverted := false
    animRenderDirIsReversed := false
    isRunning := true
    currentFunc := some AnimFunc.beatPulseF
    init := true }

/-- An engine paired with the LED buffer of the bar meter it renders to. -/
structure Sim where
  eng : Engine
  led : LedState

/-- `_currentTime = syncTime;` at the top of `update()` (`uint32_t`). -/
def Sim.setTime (t : Nat) (x : Sim) : Sim :=
  { x with eng := { x.eng with currentTime := t % 4294967296 } }

/-- `update(syncTime)`: records the time, bails out when not running,
paused or without a selected step function, otherwise runs the active step
function once and applies the loop/stop policy to its completion signal;
returns the running flag.  The step function is passed explicitly in place
of the source's member-function-pointer dispatch. -/
def Sim.update (step : Sim → Sim × Bool) (syncTime : Nat) (x : Sim) : Sim × Bool :=
  let x := Sim.setTime syncTime x
  if !x.eng.isRunning || x.eng.isPaused || x.eng.currentFunc.isNone then (x, false)
  else
    let r := step x
    let y := r.1
    let y :=
      if r.2 then
        if y.eng.loop then
          if y.eng.skipPending then { y with eng := { y.eng with isLoopingNow := false } }
          else { y with eng := { y.eng with isLoopingNow := true, init := true } }
        else
          { y with eng := { y.eng with
              isLoopingNow := false
              isRunning := false
              currentFunc := none } }
      else y
    (y, y.eng.isRunning)

/-- C3: when the active step function signals completion inside `update()`,
then with looping enabled and no skip-loop pending the engine sets the
one-shot just-looped flag and re-arms the init flag (deferring the re-init
to the next tick); with looping disabled it clears the just-looped flag,
stops running and clears the active step function. -/
theorem C3_update_loop_policy (step : Sim → Sim × Bool) (t : Nat) (x y : Sim)
    (h1 : x.eng.isRunning = true) (h2 : x.eng.isPaused = false)
    (h3 : x.eng.currentFunc.isNone = false)
    (hstep : step (Sim.setTime t x) = (y, true)) :
    (y.eng.loop = true → y.eng.skipPending = false →
      (Sim.update step t x).1.eng.isLoopingNow = true ∧
        (Sim.update step t x).1.eng.init = true) ∧
    (y.eng.loop = false →
      (Sim.update step t x).1.eng.isLoopingNow = false ∧
        (Sim.update step t x).1.eng.isRunning = false ∧
        (Sim.update step t x).1.eng.currentFunc = none) := by
  have hguard : (!(Sim.setTime t x).eng.isRunning || (Sim.setTime t x).eng.isPaused ||
      (Sim.setTime t x).eng.currentFunc.isNone) = false := by
    simp [Sim.setTime, h1, h2, h3]
  constructor
  · intro hl hs
    simp [Sim.update, hguard, hstep, hl, hs]
  · intro hl
    simp [Sim.update, hguard, hstep, hl]

/-- Completed-step stub used only to witness C3. -/
def stepDoneW : Sim → Sim × Bool := fun z => (z, true)

/-- Running, loop-enabled engine used only to witness C3. -/
def simW : Sim :=
  { eng := { engine0 with
      isRunning := true
      currentFunc := some AnimFunc.fillOrEmptyF
      loop := true
      skipPending := false }
    led := fun _ _ _ => false }

/-- Witness for C3 at a concrete running, looping engine. -/
theorem C3_update_loop_policy_witness :
    (Sim.update stepDoneW 5 simW).1.eng.isLoopingNow = true ∧
      (Sim.update stepDoneW 5 simW).1.eng.init = true :=
  (C3_update_loop_policy stepDoneW 5 simW (Sim.setTime 5 simW)
    rfl rfl rfl rfl).1 rfl rfl

/-- Engine used as the concrete input of the C4 counterexample: looping
enabled, block emission stopped, animation running. -/
def engineC4 : Engine :=
  { engine0 with
    loop := true
    emittingBlocksEnabled := false
    isRunning := true
    currentFunc := some AnimFunc.fillOrEmptyF }

/-- C4 counterexample: after `stop()` on a looping engine whose block
emission was stopped, looping is still enabled and the block-emission flag
is still cleared, contradicting the claim that `stop()` disables looping
and resets the block-emission flag. -/
theorem C4_stop_cex :
    (Engine.stop engineC4).loop = true ∧
      (Engine.stop engineC4).emittingBlocksEnabled = false :=
  ⟨rfl, rfl⟩

/-- C4 amended: `stop()` synchronously clears running, pause, the skip-loop
request, the active step function and the logic-set flag, and leaves the
looping flag and the block-emission flag unchanged. -/
theorem C4_stop_amended (e : Engine) :
    (Engine.stop e).isRunning = false ∧
      (Engine.stop e).currentFunc = none ∧
      (Engine.stop e).isPaused = false ∧
      (Engine.stop e).skipPending = false ∧
      (Engine.stop e).animLogicSet = false ∧
      (Engine.stop e).loop = e.loop ∧
      (Engine.stop e).emittingBlocksEnabled = e.emittingBlocksEnabled :=
  ⟨rfl, rfl, rfl, rfl, rfl, rfl, rfl⟩

/-- C7: `toggleDir()` twice is the identity on the rendering direction, so
the rendered physical address of every logical index — the resolver applied
to the direction-corrected pixel — is restored (round-trip law). -/
theorem C7_toggleDir_roundtrip (e : Engine) (m : BarMeter) (d : Driver) (i : Nat) :
    getMappedDevRowCol m d ((e.toggleDir.toggleDir).corrPixelToDir i) =
      getMappedDevRowCol m d (e.corrPixelToDir i) ∧
    (e.toggleDir.toggleDir).animRenderDirIsReversed = e.animRenderDirIsReversed := by
  constructor
  · simp [Engine.toggleDir, Engine.corrPixelToDir]
  · simp [Engine.toggleDir]

/-- C10: the pointer-driven `beatPulse(bpmPtr)` overload leaves the `_init`
flag unchanged (only the constant overload re-arms it), assigns `_param2`
(the base-level slot) twice so that it ends at the MIN_PEAK_LEVEL value,
and never writes `_param3` (the minimum-peak-level slot), which keeps the
value left by the previously selected algorithm. -/
theorem C10_beatPulse_frame_effect (p : Option Nat) (b : Nat) (e : Engine) :
    (Engine.beatPulsePtr p e).init = e.init ∧
      (Engine.beatPulsePtr p e).param3 = e.param3 ∧
      (Engine.beatPulsePtr p e).param2 = min (67 * (e.segsNum - 1) / 100) 255 ∧
      (Engine.beatPulseConst b e).init = true ∧
      (Engine.beatPulseConst b e).param3 = min (67 * (e.segsNum - 1) / 100) 255 :=
  ⟨rfl, rfl, rfl, rfl, rfl⟩

/-- C8 evaluation at the failing input: `_correctSwapOrEqualMinMax(65535,
65535)` leaves the pair equal, takes the always-true comma-typo branch
`if (maxVal < 65, 535)`, and wraps `maxVal = minVal + 1` to 0, returning
`(65535, 0)` — min is NOT strictly below max, contradicting the intended
postcondition the dead `minVal--` branch was written to guarantee. -/
theorem C8_corrMinMax_wrap_eval :
    correctSwapOrEqualMinMax 65535 65535 = (65535, 0) ∧
      ¬ (correctSwapOrEqualMinMax 65535 65535).1 <
          (correctSwapOrEqualMinMax 65535 65535).2 := by
  decide

/-- `_calculateSwtichPostion(pos, bockL, range)`: the switched head position
of a block on a live logic inversion, `(range - 1) - pos + (bockL - 1)`
(all `int` arithmetic, truncated to `int8_t` on return). -/
def calculateSwtichPostion (pos : Int) (bockL range : Nat) : Int :=
  toInt8 ((range : Int) - 1 - pos + ((bockL : Int) - 1))

/-- The per-block effect of the loop in `_calculateSwitchedEmitTickCounter`:
an active block is moved to its switched position and deactivated when that
position is negative; inactive blocks are untouched. -/
def switchStep (blockL range : Nat) (b : Block) : Block :=
  if !b.active then b
  else
    let swp := calculateSwtichPostion b.position blockL range
    if swp < 0 then { position := swp, active := false }
    else { position := swp, active := true }

/-- One iteration of the loop in `_calculateSwitchedEmitTickCounter`,
accumulating the rewritten block pool and the `closestSwp` tracker
(sentinel -127 = no visible block seen yet). -/
def switchAccStep (blockL range : Nat) (acc : List Block × Int) (b : Block) :
    List Block × Int :=
  if !b.active then (acc.1 ++ [b], acc.2)
  else
    let swp := calculateSwtichPostion b.position blockL range
    if swp < 0 then (acc.1 ++ [{ position := swp, active := false }], acc.2)
    else
      (acc.1 ++ [{ position := swp, active := true }],
        if acc.2 = -127 ∨ swp < acc.2 then swp else acc.2)

/-- `_calculateSwitchedEmitTickCounter(range)`: re-projects every block,
tracks the visible switched position closest to the new emit side, and
returns the rewritten pool together with the new cooldown
`(emitInterval - 1) - closestSwp` (0 when no block stays visible). -/
def calculateSwitchedEmitTickCounter (blockL blockS range : Nat)
    (blocks : List Block) : List Block × Int :=
  let emitInterval : Int := toInt8 ((blockL : Int) + (blockS : Int))
  let r := blocks.foldl (switchAccStep blockL range) ([], -127)
  (r.1, if 0 ≤ r.2 then toInt8 (emitInterval - 1 - r.2) else 0)

/-- The closest-visible-block tracker of the loop, in isolation. -/
def minUpd (blockL range : Nat) (c : Int) (b : Block) : Int :=
  if !b.active then c
  else
    let swp := calculateSwtichPostion b.position blockL range
    if swp < 0 then c
    else if c = -127 ∨ swp < c then swp else c

/-- The switched positions of the blocks that stay visible (active blocks
whose re-projected position is nonnegative), in pool order. -/
def switchedVisible (blockL range : Nat) (blocks : List Block) : List Int :=
  ((blocks.filter fun b => b.active).map fun b =>
    calculateSwtichPostion b.position blockL range).filter fun p => decide (0 ≤ p)

lemma switchedVisible_cons (blockL range : Nat) (b : Block) (t : List Block) :
    switchedVisible blockL range (b :: t) =
      if b.active ∧ 0 ≤ calculateSwtichPostion b.position blockL range then
        calculateSwtichPostion b.position blockL range ::
          switchedVisible blockL range t
      else switchedVisible blockL range t := by
  unfold switchedVisible
  by_cases hb : b.active = true
  · rw [List.filter_cons_of_pos hb, List.map_cons, List.filter_cons]
    by_cases hs : 0 ≤ calculateSwtichPostion b.position blockL range
    · simp [hs, hb]
    · simp [hs, hb]
  · rw [List.filter_cons_of_neg (by simpa using hb)]
    simp [hb]

lemma switchAcc_fold_split (blockL range : Nat) (l : List Block) :
    ∀ (bs : List Block) (c : Int),
      l.foldl (switchAccStep blockL range) (bs, c) =
        (bs ++ l.map (switchStep blockL range), l.foldl (minUpd blockL range) c) := by
  induction l with
  | nil => intro bs c; simp
  | cons b t ih =>
    intro bs c
    rw [List.foldl_cons, List.foldl_cons, List.map_cons]
    by_cases hb : b.active = true
    · by_cases hs : calculateSwtichPostion b.position blockL range < 0
      · have h1 : switchAccStep blockL range (bs, c) b =
            (bs ++ [{ position := calculateSwtichPostion b.position blockL range,
                      active := false }], c) := by
          simp [switchAccStep, hb, hs]
        have h2 : minUpd blockL range c b = c := by simp [minUpd, hb, hs]
        have h3 : switchStep blockL range b =
            { position := calculateSwtichPostion b.position blockL range,
              active := false } := by
          simp [switchStep, hb, hs]
        rw [h1, h2, h3, ih]
        simp
      · have h1 : switchAccStep blockL range (bs, c) b =
            (bs ++ [{ position := calculateSwtichPostion b.position blockL range,
                      active := true }],
              if c = -127 ∨ calculateSwtichPostion b.position blockL range < c then
                calculateSwtichPostion b.position blockL range
              else c) := by
          simp [switchAccStep, hb, hs]
        have h2 : minUpd blockL range c b =
            if c = -127 ∨ calculateSwtichPostion b.position blockL range < c then
              calculateSwtichPostion b.position blockL range
            else c := by
          simp [minUpd, hb, hs]
        have h3 : switchStep blockL range b =
            { position := calculateSwtichPostion b.position blockL range,
              active := true } := by
          simp [switchStep, hb, hs]
        rw [h1, h2, h3, ih]
        simp
    · have h1 : switchAccStep blockL range (bs, c) b = (bs ++ [b], c) := by
        simp [switchAccStep, hb]
      have h2 : minUpd blockL range c b = c := by simp [minUpd, hb]
      have h3 : switchStep blockL range b = b := by simp [switchStep, hb]
      rw [h1, h2, h3, ih]
      simp

lemma minUpd_fold_nonneg (blockL range : Nat) (l : List Block) :
    ∀ c : Int, 0 ≤ c →
      l.foldl (minUpd blockL range) c ≤ c ∧
      (∀ x ∈ switchedVisible blockL range l, l.foldl (minUpd blockL range) c ≤ x) ∧
      (l.foldl (minUpd blockL range) c = c ∨
        l.foldl (minUpd blockL range) c ∈ switchedVisible blockL range l) := by
  induction l with
  | nil =>
    intro c _
    simp [switchedVisible]
  | cons b t ih =>
    intro c hc
    rw [List.foldl_cons, switchedVisible_cons]
    by_cases hb : b.active = true
    · by_cases hs : 0 ≤ calculateSwtichPostion b.position blockL range
      · rw [if_pos ⟨hb, hs⟩]
        have hstep : minUpd blockL range c b =
            if calculateSwtichPostion b.position blockL range < c then
              calculateSwtichPostion b.position blockL range
            else c := by
          have hc127 : ¬ c = -127 := by omega
          simp [minUpd, hb, not_lt.mpr hs, hc127]
        rw [hstep]
        by_cases hlt : calculateSwtichPostion b.position blockL range < c
        · rw [if_pos hlt]
          obtain ⟨hle, hall, hmem⟩ := ih _ hs
          refine ⟨le_trans hle (le_of_lt hlt), ?_, ?_⟩
          · intro x hx
            rcases List.mem_cons.mp hx with rfl | hx
            · exact hle
            · exact hall x hx
          · rcases hmem with h | h
            · refine Or.inr ?_
              rw [h]
              exact List.mem_cons_self _ _
            · exact Or.inr (List.mem_cons_of_mem _ h)
        · rw [if_neg hlt]
          obtain ⟨hle, hall, hmem⟩ := ih c hc
          refine ⟨hle, ?_, ?_⟩
          · intro x hx
            rcases List.mem_cons.mp hx with rfl | hx
            · exact le_trans hle (not_lt.mp hlt)
            · exact hall x hx
          · rcases hmem with h | h
            · exact Or.inl h
            · exact Or.inr (List.mem_cons_of_mem _ h)
      · rw [if_neg (by tauto)]
        have hstep : minUpd blockL range c b = c := by
          simp [minUpd, hb, show calculateSwtichPostion b.position blockL range < 0 by omega]
        rw [hstep]
        exact ih c hc
    · rw [if_neg (by tauto)]
      have hstep : minUpd blockL range c b = c := by simp [minUpd, hb]
      rw [hstep]
      exact ih c hc

lemma minUpd_fold_sentinel (blockL range : Nat) (l : List Block) :
    (switchedVisible blockL range l = [] →
      l.foldl (minUpd blockL range) (-127) = -127) ∧
    (switchedVisible blockL range l ≠ [] →
      l.foldl (minUpd blockL range) (-127) ∈ switchedVisible blockL range l ∧
      ∀ x ∈ switchedVisible blockL range l, l.foldl (minUpd blockL range) (-127) ≤ x) := by
  induction l with
  | nil =>
    simp [switchedVisible]
  | cons b t ih =>
    rw [List.foldl_cons, switchedVisible_cons]
    by_cases hb : b.active = true
    · by_cases hs : 0 ≤ calculateSwtichPostion b.position blockL range
      · rw [if_pos ⟨hb, hs⟩]
        have hstep : minUpd blockL range (-127) b =
            calculateSwtichPostion b.position blockL range := by
          simp [minUpd, hb, not_lt.mpr hs]
        rw [hstep]
        obtain ⟨hle, hall, hmem⟩ := minUpd_fold_nonneg blockL range t _ hs
        constructor
        · intro h
          exact absurd h (List.cons_ne_nil _ _)
        · intro _
          constructor
          · rcases hmem with h | h
            · rw [h]
              exact List.mem_cons_self _ _
            · exact List.mem_cons_of_mem _ h
          · intro x hx
            rcases List.mem_cons.mp hx with rfl | hx
            · exact hle
            · exact hall x hx
      · rw [if_neg (by tauto)]
        have hstep : minUpd blockL range (-127) b = -127 := by
          simp [minUpd, hb, show calculateSwtichPostion b.position blockL range < 0 by omega]
        rw [hstep]
        exact ih
    · rw [if_neg (by tauto)]
      have hstep : minUpd blockL range (-127) b = -127 := by simp [minUpd, hb]
      rw [hstep]
      exact ih

/-- C6 counterexample: the claim's formula `visibleRange - pos +
(blockLength - 1)` disagrees with the code.  For the visible range 14 (a
28-segment mirrored animation), block head 0 and block length 2, the code's
`_calculateSwtichPostion` yields 14 while the claimed formula yields 15. -/
theorem C6_switch_formula_cex :
    calculateSwtichPostion 0 2 14 = 14 ∧
      ((14 : Int) - 0 + ((2 : Int) - 1) = 15) ∧
      calculateSwtichPostion 0 2 14 ≠ (14 : Int) - 0 + ((2 : Int) - 1) := by
  decide

/-- C6 amended: on a live logic-inversion switch,
`_calculateSwitchedEmitTickCounter` re-projects every active block to
`(visibleRange - 1) - pos + (blockLength - 1)` (deactivating blocks whose
switched position is negative, never resetting positions), and recomputes
the emission cooldown as `(blockLength + blockSpacing - 1) - p` where `p`
is the smallest re-projected position among blocks still visible from the
new emit side (0 when none remains visible). -/
theorem C6_switch_reprojection_amended (blockL blockS range : Nat)
    (blocks : List Block) :
    (calculateSwitchedEmitTickCounter blockL blockS range blocks).1 =
        blocks.map (switchStep blockL range) ∧
      (switchedVisible blockL range blocks = [] →
        (calculateSwitchedEmitTickCounter blockL blockS range blocks).2 = 0) ∧
      (switchedVisible blockL range blocks ≠ [] →
        ∃ p, p ∈ switchedVisible blockL range blocks ∧
          (∀ x ∈ switchedVisible blockL range blocks, p ≤ x) ∧
          (calculateSwitchedEmitTickCounter blockL blockS range blocks).2 =
            toInt8 (toInt8 ((blockL : Int) + (blockS : Int)) - 1 - p)) := by
  unfold calculateSwitchedEmitTickCounter
  rw [switchAcc_fold_split]
  refine ⟨by simp, ?_, ?_⟩
  · intro hemp
    have h := (minUpd_fold_sentinel blockL range blocks).1 hemp
    simp [h]
  · intro hne
    obtain ⟨hmem, hall⟩ := (minUpd_fold_sentinel blockL range blocks).2 hne
    have h0 : 0 ≤ blocks.foldl (minUpd blockL range) (-127) := by
      have := List.mem_filter.mp hmem
      exact of_decide_eq_true this.2
    exact ⟨_, hmem, hall, by simp [if_pos h0]⟩

/-- Block pool used only to witness C6. -/
def blocksW : List Block :=
  [{ position := 3, active := true }, { position := 20, active := true }]

/-- Witness for C6 at a concrete two-block pool (one block stays visible,
one leaves the range and is deactivated). -/
theorem C6_switch_reprojection_amended_witness :
    ∃ p, p ∈ switchedVisible 2 14 blocksW ∧
      (∀ x ∈ switchedVisible 2 14 blocksW, p ≤ x) ∧
      (calculateSwitchedEmitTickCounter 2 1 14 blocksW).2 =
        toInt8 (toInt8 ((2 : Int) + (1 : Int)) - 1 - p) :=
  (C6_switch_reprojection_amended 2 1 14 blocksW).2.2 (by decide)

/-- The pre-fill loop of `_fillOrEmpty`'s init branch: through the
direction correction, light every segment up to `bound` inclusive and
clear the rest. -/
def prefillLed (m : BarMeter) (e : Engine) (bound : Int) (led : LedState) : LedState :=
  (List.range e.segsNum).foldl
    (fun l i => m.setPixel l (e.corrPixelToDir i) (if (i : Int) ≤ bound then 1 else 0))
    led

/-- `_fillOrEmpty()`: re-reads pointer-backed range bounds, performs the
one-tick initialization (pre-fill pattern, tracker seed) when `_init` is
armed, clamps the tracker on a live logic change, and otherwise — once the
interval has elapsed — advances exactly one segment, signalling completion
when the tracker crosses its bound. -/
def fillOrEmptyStep (m : BarMeter) (x : Sim) : Sim × Bool :=
  let e0 := x.eng.mapMinMaxTrackerFromPtr 0 (toU8 ((x.eng.segsNum : Int) - 1))
  if e0.init then
    let e := { e0 with init := false }
    let e :=
      if !e.animLogicSet then
        { e with
          prevAnimRenderLogic := e.AnimInitLogicIsInverted
          animRenderLogicIsInverted := e.AnimInitLogicIsInverted }
      else e
    if e.animRenderLogicIsInverted then
      let e := { e with ledTracker1 := e.maxTracker }
      ({ eng := e, led := prefillLed m e e.maxTracker x.led }, false)
    else
      let e := { e with ledTracker1 := e.minTracker }
      ({ eng := e, led := prefillLed m e e.minTracker x.led }, false)
  else
    let e := e0
    let e :=
      if e.animRenderLogicIsInverted ≠ e.prevAnimRenderLogic then
        let e := { e with prevAnimRenderLogic := e.animRenderLogicIsInverted }
        let e :=
          if e.animRenderLogicIsInverted ∧ e.ledTracker1 > e.maxTracker then
            { e with ledTracker1 := e.maxTracker }
          else e
        if e.animRenderLogicIsInverted = false ∧ e.ledTracker1 < e.minTracker then
          { e with ledTracker1 := e.minTracker }
        else e
      else e
    if sub32 e.currentTime e.lastUpdate1 ≥ e.updateIntv1 then
      let e := { e with lastUpdate1 := e.currentTime }
      if e.animRenderLogicIsInverted then
        if e.ledTracker1 ≥ e.minTracker ∧ e.ledTracker1 ≥ e.minTracker then
          ({ eng := { e with ledTracker1 := e.ledTracker1 - 1 }
             led := m.setPixel x.led (e.corrPixelToDir (toU8 e.ledTracker1)) 0 }, false)
        else ({ eng := e, led := x.led }, true)
      else
        if e.ledTracker1 ≤ e.maxTracker ∧ e.ledTracker1 < (e.segsNum : Int) then
          ({ eng := { e with ledTracker1 := e.ledTracker1 + 1 }
             led := m.setPixel x.led (e.corrPixelToDir (toU8 e.ledTracker1)) 1 }, false)
        else ({ eng := e, led := x.led }, true)
    else ({ eng := e, led := x.led }, false)

/-- Dispatch of `_currentFunc` for the C9 scenario on the 28-segment bar
(`_fillOrEmpty` is the only step function this scenario selects). -/
def stepSemC9 (x : Sim) : Sim × Bool :=
  match x.eng.currentFunc with
  | some AnimFunc.fillOrEmptyF => fillOrEmptyStep bar28 x
  | _ => (x, false)

/-- Engine state right after `setSegsNum(28)` and `fillUpIntv(25, 100, 0)`
on a fresh engine: loop disabled, `_init` still armed from construction. -/
def engineC9 : Engine := Engine.fillUpIntv 25 100 0 (engine0.setSegsNum 28)

/-- The C9 scenario's initial state: configured engine, all LEDs off. -/
def simC9start : Sim := { eng := engineC9, led := fun _ _ _ => false }

/-- `n` successive `update()` calls with synthetic timestamps
`t, t + 25, t + 50, ...`. -/
def runTicks25 (t : Nat) : Nat → Sim → Sim
  | 0, x => x
  | n + 1, x => runTicks25 (t + 25) n (Sim.update stepSemC9 t x).1

/-- The C9 scenario state after `n` calls of `update()` at timestamps
25, 50, 75, ... milliseconds. -/
def simC9 (n : Nat) : Sim := runTicks25 25 n simC9start

set_option maxRecDepth 100000 in
set_option maxHeartbeats 1000000 in
/-- C9 counterexample: after `fillUpIntv(25, 100, 0)` and 28 `update()`
calls at timestamps advancing by 25 ms, segment 27 is still off and the
animation is still running — the first call is consumed by the one-tick
initialization, so all 28 segments are NOT lit after the 28th call and
`isRunning()` is not yet false, contradicting the claim. -/
theorem C9_after_28_calls_cex :
    bar28.getPixelState (simC9 28).led 27 = 0 ∧
      (simC9 28).eng.isRunning = true := by
  decide

set_option maxRecDepth 100000 in
set_option maxHeartbeats 1000000 in
/-- C9 amended: segment 0 is lit right after the first call (the
initialization tick pre-fills it); all 28 segments are lit after the 29th
call with the animation still running; the 30th call's `update()` returns
false, after which `isRunning()` is false (loop disabled). -/
theorem C9_fillUpIntv_amended :
    bar28.getPixelState (simC9 1).led 0 = 1 ∧
      List.all (List.range 28)
        (fun i => bar28.getPixelState (simC9 29).led i == 1) = true ∧
      (simC9 29).eng.isRunning = true ∧
      (Sim.update stepSemC9 750 (simC9 29)).2 = false ∧
      (simC9 30).eng.isRunning = false := by
  decide
